import Mathlib

/-!
Shallow embedding of the Heylock client SDK (src/index.js) and proofs about the
claims of its specification.  Pure fragments of the JavaScript source are
translated into Lean functions; the stateful methods are modelled by explicit
state passing.  JavaScript numbers that the code manipulates are integers here
(quota counters and epoch-millisecond timestamps); dynamic typeof checks are
modelled by small inductive value types.
-/

deriving instance DecidableEq for Except

namespace Heylock

/-- Executable model of String.prototype.trim: drop whitespace characters
from both ends.  (Core String.trim is byte-position based and does not reduce
in the kernel, so the same function is defined here on the character list.) -/
def jsTrim (s : String) : String :=
  ⟨((s.data.dropWhile Char.isWhitespace).reverse.dropWhile Char.isWhitespace).reverse⟩

/-- Decimal value of a digit string; none when a non-digit occurs.  Used to
model Number(...) on header strings (quotas are integral). -/
def decNatOfChars (cs : List Char) : Option Nat :=
  cs.foldl
    (fun acc c =>
      match acc with
      | none => none
      | some a => if c.isDigit then some (a * 10 + (c.toNat - 48)) else none)
    (some 0)

/-- src/index.js line 1. -/
def MAX_MESSAGE_LENGTH : Nat := 10000

/-- src/index.js line 2. -/
def MAX_CONTEXT_ENTRY_LENGTH : Nat := 2000

/-- src/index.js line 3 (milliseconds). -/
def SHOULD_ENGAGE_THROTTLING_MS : Int := 15000

/-- The two admissible message roles (validated at src/index.js line 249). -/
inductive Role where
  | user
  | assistant
deriving DecidableEq

/-- A transcript message: an object with string content and a role
(src/index.js lines 254-257). -/
structure Message where
  content : String
  role : Role
deriving DecidableEq

/-- A committed context entry: trimmed content plus an epoch-millisecond
timestamp (src/index.js lines 370-373). -/
structure CtxEntry where
  content : String
  timestamp : Int
deriving DecidableEq

/-- Errors raised by the message-history operations. -/
inductive MsgOpErr where
  | contentTooLong
  | outOfBounds
  | emptyContent
deriving DecidableEq

/-- addMessage (src/index.js lines 239-262): validates the content length,
appends the trimmed content with the given role, and returns the index of the
new message (newLength - 1). -/
def addMessage (history : List Message) (content : String) (role : Role) :
    Except MsgOpErr (List Message × Nat) :=
  if content.length > MAX_MESSAGE_LENGTH then .error .contentTooLong
  else .ok (history ++ [⟨jsTrim content, role⟩], history.length)

/-- modifyMessage (src/index.js lines 280-307): bounds check, non-empty and
length checks, then in-place update of content (trimmed) and role (the old
role is kept when none is given, per the JS expression role || old). -/
def modifyMessage (history : List Message) (index : Nat) (content : String)
    (role : Option Role) : Except MsgOpErr (List Message) :=
  if index ≥ history.length then .error .outOfBounds
  else if (jsTrim content).length = 0 then .error .emptyContent
  else if content.length > MAX_MESSAGE_LENGTH then .error .contentTooLong
  else
    .ok (history.set index
      ⟨jsTrim content, role.getD (history.getD index ⟨"", .user⟩).role⟩)

/-! ### C1: the messageHistory / context getters and JavaScript aliasing

The getters (src/index.js lines 130-138) are
  get messageHistory(){ return this.#messageHistory ?? []; }
  get context(){ return this.#context ?? []; }
They return the value of the private field.  For a JavaScript array that value
is a reference to the array object, not a copy, so we model a tiny heap of
array cells addressed by natural numbers. -/

/-- A heap of JavaScript arrays holding elements of type alpha; an address is
an index into the cell list. -/
structure ArrayHeap (α : Type) where
  cells : List (List α)
deriving DecidableEq

/-- Dereference an array address. -/
def readArr {α : Type} (h : ArrayHeap α) (ref : Nat) : List α :=
  h.cells.getD ref []

/-- Overwrite the array stored at an address. -/
def writeArr {α : Type} (h : ArrayHeap α) (ref : Nat) (v : List α) :
    ArrayHeap α :=
  ⟨h.cells.set ref v⟩

/-- Array.prototype.push applied through a reference mutates the referenced
array in place. -/
def jsPush {α : Type} (h : ArrayHeap α) (ref : Nat) (x : α) : ArrayHeap α :=
  writeArr h ref (readArr h ref ++ [x])

/-- get messageHistory (src/index.js lines 131-133): returns the stored field
value, i.e. the reference to the internal array itself - no copy is made. -/
def messageHistoryGetter (historyRef : Nat) : Nat := historyRef

/-- get context (src/index.js lines 136-138): likewise returns the internal
array reference. -/
def contextGetter (contextRef : Nat) : Nat := contextRef

/-! ### C2: the initialization sequencer -/

/-- The shape of the valid field of the verification response body
(checked with typeof at src/index.js line 82). -/
inductive ValidField where
  | missing
  | boolVal (b : Bool)
  | nonBool
deriving DecidableEq

/-- A resolved verification response: HTTP status plus the valid field of its
JSON body. -/
structure VerifyReply where
  status : Nat
  valid : ValidField
deriving DecidableEq

/-- The outcome of the verification fetch itself. -/
inductive VerifyEvent where
  | reply (r : VerifyReply)
  | networkFailure
deriving DecidableEq

/-- Outcome of the fetchUsageRemaining call made on the success path
(src/index.js line 93). -/
inductive UsageFetch where
  | fetched (messages sorts rewrites : Int)
  | failed
deriving DecidableEq

/-- Observable outcome of running the private async initializer. -/
structure InitOutcome where
  isInitialized : Bool
  /-- The success-flag values with which each registered onInitialized
  callback is invoked, in invocation-round order. -/
  callbackFlags : List Bool
  /-- Whether the initializer threw (an unhandled rejection, since the
  constructor does not await it). -/
  threw : Bool
deriving DecidableEq

/-- The private initializer #initializeAgent (src/index.js lines 62-108).
Every failure branch throws; #onInitializedExecute (lines 162-170, which
passes isInitialized to each callback) runs only on the success branch at
line 95, and only after fetchUsageRemaining resolves. -/
def initAgentRun (ev : VerifyEvent) (usage : UsageFetch) : InitOutcome :=
  match ev with
  | .networkFailure => ⟨false, [], true⟩
  | .reply r =>
    if r.status = 500 then ⟨false, [], true⟩
    else if r.status ≠ 200 then ⟨false, [], true⟩
    else
      match r.valid with
      | .boolVal true =>
        match usage with
        | .fetched _ _ _ => ⟨true, [true], false⟩
        | .failed => ⟨true, [], true⟩
      | .boolVal false => ⟨false, [], true⟩
      | .missing => ⟨false, [], true⟩
      | .nonBool => ⟨false, [], true⟩

/-! ### C3: the usage tracker updates after metered calls

The x-ratelimit-remaining response header is either null (absent) or a header
string.  The code converts it with Number(...): Number(null) is 0, the empty
string gives 0, and a non-numeric string gives NaN.  Quotas are integral, so a
numeric header string is modelled by its decimal value. -/

/-- A JavaScript number that is either NaN or an integer. -/
inductive JsNum where
  | nan
  | num (n : Int)
deriving DecidableEq

/-- Number(rateLimitRemainingHeader) where the header is null (none) or a
string (src/index.js lines 682-683 and the three analogous sites). -/
def jsNumberOfHeaderVal : Option String → JsNum
  | none => .num 0
  | some s =>
    match s.data with
    | [] => .num 0
    | cs =>
      match decNatOfChars cs with
      | some n => .num n
      | none => .nan

/-- The global isNaN on a number value. -/
def jsIsNaNNum : JsNum → Bool
  | .nan => true
  | .num _ => false

/-- The integer stored when a number value is assigned to a counter; NaN is
never assigned under the guards below, so that branch is arbitrary. -/
def jsNumVal : JsNum → Int
  | .nan => 0
  | .num n => n

/-- Counter update of message, messageStream and rewrite
(src/index.js lines 682-689, 795-802, 1067-1074):
  if(!isNaN(rateLimitRemaining) && rateLimitRemainingHeader !== null)
    overwrite the counter with rateLimitRemaining
  else decrement it. -/
def meteredCounterUpdate (hdr : Option String) (prev : Int) : Int :=
  if !jsIsNaNNum (jsNumberOfHeaderVal hdr) && hdr.isSome then
    jsNumVal (jsNumberOfHeaderVal hdr)
  else prev - 1

/-- JavaScript truthiness of a number: NaN and 0 are falsy. -/
def jsNumTruthy : JsNum → Bool
  | .nan => false
  | .num n => decide (n ≠ 0)

/-- The value of the JavaScript expression (number && boolean): the number
itself when it is falsy, the boolean otherwise. -/
inductive JsAndVal where
  | ofNum (r : JsNum)
  | ofBool (b : Bool)
deriving DecidableEq

/-- Short-circuit evaluation of (r && b) for a number r and a boolean b. -/
def jsAndNumBool (r : JsNum) (b : Bool) : JsAndVal :=
  if jsNumTruthy r then .ofBool b else .ofNum r

/-- isNaN applied to the result of (r && b); isNaN coerces a boolean to 0 or 1,
neither of which is NaN. -/
def jsIsNaNAnd : JsAndVal → Bool
  | .ofNum .nan => true
  | .ofNum (.num _) => false
  | .ofBool _ => false

/-- Counter update of sort (src/index.js lines 1170-1177), whose guard is
mis-parenthesised relative to the other three metered calls:
  if(!isNaN(rateLimitRemaining && rateLimitRemainingHeader !== null))
    this.#usageRemaining.sorts = rateLimitRemaining;
  else this.#usageRemaining.sorts--; -/
def sortCounterUpdate (hdr : Option String) (prev : Int) : Int :=
  if !jsIsNaNAnd (jsAndNumBool (jsNumberOfHeaderVal hdr) hdr.isSome) then
    jsNumVal (jsNumberOfHeaderVal hdr)
  else prev - 1

/-! ### C4: greet -/

/-- The prompt synthesis of greet (src/index.js lines 910-921). -/
def greetEffectiveInstructions (instructions : Option String)
    (useContext useMessageHistory : Bool) (historyLen : Nat) : String :=
  let base :=
    match instructions with
    | some instr =>
      "Write a greeting message encouraging the visitor to interact with you. Use instructions: "
        ++ instr
    | none =>
      let s := "Greet the visitor in one short, friendly sentence. Encourage interaction. Sound human."
      if useContext then s ++ " Mention their interests or passions subtly." else s
  if useMessageHistory && historyLen > 0 then
    base ++ " Take into account our previous conversation history to make the greeting more personalized and contextual"
  else base

/-- Observable effect of a successful greet call. -/
structure GreetRun where
  /-- The useContext argument greet passes to message() (line 924). -/
  delegatedUseContext : Bool
  /-- The saveToMessageHistory argument greet passes to message() (line 924). -/
  delegatedSaveToMessageHistory : Bool
  historyAfter : List Message
  output : String
deriving DecidableEq

/-- The success path of greet (src/index.js lines 889-932) after validation:
line 924 delegates to this.message(effectiveInstructions, true, false), which
with saveToMessageHistory=false leaves the history unchanged and returns the
server reply; line 926 then runs this.addMessage(output, 'assistant')
unconditionally - the saveToMessageHistory parameter is validated at line 905
but never consulted afterwards. -/
def greetSuccess (history : List Message) (saveToMessageHistory : Bool)
    (reply : String) : Except MsgOpErr GreetRun :=
  match addMessage history reply Role.assistant with
  | .error e => .error e
  | .ok (h, _) => .ok ⟨true, false, h, reply⟩

/-! ### C5: context persistence keys -/

/-- The key passed to #setStorageItem by the onContextChange subscriber the
constructor registers (src/index.js lines 30-32). -/
def contextPersistWriteKey : String := "context"

/-- The key passed to #getStorageItem once during construction
(src/index.js line 34). -/
def constructionRestoreReadKey : String := "context"

/-- The write the subscriber performs on a context change: the fixed key and
the serialized current context array (src/index.js line 31). -/
def contextChangeWrite (ctx : List CtxEntry) : String × List CtxEntry :=
  (contextPersistWriteKey, ctx)

/-- The namespaced key layout the spec describes:
product, agent identity, then the literal segment context. -/
def namespacedContextKey (product agentIdentity : String) : String :=
  product ++ ":" ++ agentIdentity ++ ":context"

/-! ### C6: messageStream record processing

A parsed newline-delimited JSON record of the streaming response body
(src/index.js lines 851-869).  An absent message field is none; the done field
is false when absent. -/

structure StreamRecord where
  message : Option String
  done : Bool
deriving DecidableEq

/-- Truthiness of chunk.message: absent or the empty string is falsy. -/
def jsStrTruthy : Option String → Bool
  | none => false
  | some s => decide (s ≠ "")

/-- Accumulator of the streaming loop: the fragments yielded so far, the
fullMessage variable, and the current message history. -/
structure StreamAcc where
  emitted : List String
  fullMessage : String
  history : List Message
deriving DecidableEq

/-- The record-processing loop of messageStream (src/index.js lines 851-869),
specialized to the already-parsed records:
  if(chunk.message && !chunk.done){
    fullMessage += chunk.message;
    saveToMessageHistory && this.modifyMessage(assistantMessageIndex, fullMessage, 'assistant');
    yield chunk.message;
  } else if(chunk.done){ return fullMessage; }
A modifyMessage exception aborts the generator (it is caught by the outer
catch at line 874); exhausting the records without a done record ends the
generator with no explicit return value (none). -/
def runStreamLoop (save : Bool) (aIdx : Nat) :
    List StreamRecord → StreamAcc → Except MsgOpErr (StreamAcc × Option String)
  | [], acc => .ok (acc, none)
  | r :: rs, acc =>
    if jsStrTruthy r.message && !r.done then
      let frag := r.message.getD ""
      let full := acc.fullMessage ++ frag
      if save then
        match modifyMessage acc.history aIdx full (some .assistant) with
        | .error e => .error e
        | .ok h => runStreamLoop save aIdx rs ⟨acc.emitted ++ [frag], full, h⟩
      else runStreamLoop save aIdx rs ⟨acc.emitted ++ [frag], full, acc.history⟩
    else if r.done then .ok (acc, some acc.fullMessage)
    else runStreamLoop save aIdx rs acc

/-- The 200-response path of messageStream (src/index.js lines 749-871):
argument validation (lines 755-769), then
  saveToMessageHistory && this.addMessage(content, 'user');            (772)
  const assistantMessageIndex = saveToMessageHistory && this.addMessage('', 'assistant'); (773)
(addMessage returns newLength - 1, so the placeholder index is the length of
the history after the user message), then the record loop.  The result is
(yielded fragments, generator return value, final history). -/
def messageStreamRun (history0 : List Message) (content : String) (save : Bool)
    (records : List StreamRecord) :
    Except MsgOpErr (List String × Option String × List Message) :=
  if (jsTrim content).length = 0 then .error .emptyContent
  else if content.length > MAX_MESSAGE_LENGTH then .error .contentTooLong
  else
    let h1 := if save then history0 ++ [⟨jsTrim content, .user⟩] else history0
    let aIdx := h1.length
    let h2 := if save then h1 ++ [⟨"", .assistant⟩] else h1
    match runStreamLoop save aIdx records ⟨[], "", h2⟩ with
    | .error e => .error e
    | .ok (acc, ret) => .ok (acc.emitted, ret, acc.history)

/-- Left-to-right concatenation of fragments onto an accumulator, exactly as
the fullMessage variable accumulates: concatAllFrom "" fs is the
concatenation of fs in order. -/
def concatAllFrom (cur : String) : List String → String
  | [] => cur
  | f :: fs => concatAllFrom (cur ++ f) fs

/-! ### C7: the engagement throttle -/

/-- The object shouldEngage returns when throttled
(src/index.js lines 944-949). -/
structure EngageFallbackResult where
  shouldEngage : Bool
  reasoning : String
  warning : String
  fallback : Bool
deriving DecidableEq

/-- The warning string built from the template literal at line 947 with
SHOULD_ENGAGE_THROTTLING_MS = 15000 interpolated. -/
def throttleWarning : String :=
  "Throttling in effect (15000 ms). Please wait before calling again"

/-- A validated engagement-decision response body
(shape checked at src/index.js line 1006). -/
structure ShouldEngageData where
  shouldEngage : Bool
  reasoning : String
  fallback : Bool
deriving DecidableEq

/-- What the network returns to shouldEngage once it is actually contacted. -/
inductive EngageHttp where
  | ok200 (body : Option ShouldEngageData)
  | code (c : Nat)
  | netFail
deriving DecidableEq

/-- Classified failures of shouldEngage. -/
inductive EngageErr where
  | invalidInstructions
  | badArgs
  | auth
  | server
  | external
  | unexpectedCode (c : Nat)
  | protocol
  | network
deriving DecidableEq

/-- Result of one shouldEngage call. -/
inductive EngageResult where
  | throttledResult (r : EngageFallbackResult)
  | failed (e : EngageErr)
  | okRes (d : ShouldEngageData)
deriving DecidableEq

/-- Observable outcome of one shouldEngage call: the new value of
#shouldEngageTimeCalled, whether the remote service was contacted, and the
result. -/
structure EngageStep where
  newTimeCalled : Int
  contactedServer : Bool
  result : EngageResult
deriving DecidableEq

/-- The status-code and body-shape classification of shouldEngage
(src/index.js lines 981-1011). -/
def engageClassify : EngageHttp → EngageResult
  | .netFail => .failed .network
  | .code 400 => .failed .badArgs
  | .code 401 => .failed .auth
  | .code 500 => .failed .server
  | .code 502 => .failed .external
  | .code c => .failed (.unexpectedCode c)
  | .ok200 none => .failed .protocol
  | .ok200 (some d) => .okRes d

/-- shouldEngage (src/index.js lines 938-1024).  The throttling gate runs
first (lines 940-953): within the window it returns the fallback object
without touching the timer or the network; otherwise line 952 sets the timer
to the current time before the instruction validation and the fetch, so the
timer is updated even when the rest of the call fails. -/
def shouldEngageRun (timeCalled now : Int) (instructionsOk : Bool)
    (http : EngageHttp) : EngageStep :=
  if now - timeCalled < SHOULD_ENGAGE_THROTTLING_MS then
    ⟨timeCalled, false, .throttledResult ⟨false, "", throttleWarning, true⟩⟩
  else if !instructionsOk then ⟨now, false, .failed .invalidInstructions⟩
  else ⟨now, true, engageClassify http⟩

/-! ### C8: sort -/

/-- JavaScript array indexing arr[i] for an integer i: undefined (none) for a
negative index or one at or past the length. -/
def jsIndex {α : Type} (arr : List α) (i : Int) : Option α :=
  if 0 ≤ i then arr.get? i.toNat else none

/-- A 200 sort response body after the shape validation of line 1213: the
indexes are integers, the reasoning is a string, and the fallback field is a
boolean when present. -/
structure SortServerData where
  indexes : List Int
  reasoning : String
  fallback : Option Bool
deriving DecidableEq

/-- The value sort resolves with. -/
inductive SortOutcome (α : Type) where
  /-- The short-circuit result for a missing or short array
  (src/index.js lines 1135-1141): identity indexes, a warning, fallback true. -/
  | shortCircuit (indexes : List Nat) (fallback : Bool)
  /-- Thrown when the indexes length differs from the input length
  (lines 1218-1220). -/
  | lengthMismatchError
  /-- The success object of lines 1225-1230. -/
  | success (array : List (Option α)) (indexes : List Int) (reasoning : String)
      (fallback : Bool)
deriving DecidableEq

/-- sort (src/index.js lines 1133-1244) restricted to an actual input array
and a 200 response with a shape-valid body: the short array check, the length
check, then
  const sortedArray = sortData.indexes.map(index => array[index]);  (1223)
and the result object with fallback defaulted to false (1229). -/
def sortCall {α : Type} (arr : List α) (d : SortServerData) : SortOutcome α :=
  if arr.length < 2 then
    .shortCircuit (List.range arr.length) true
  else if d.indexes.length ≠ arr.length then .lengthMismatchError
  else
    .success (d.indexes.map (jsIndex arr)) d.indexes d.reasoning
      (d.fallback.getD false)

/-! ### C9 and C10: setMessageHistory and setContext

Caller-supplied elements are arbitrary JavaScript values, so the fields are
modelled by a small dynamic value type.  fnonfinite stands for a value of
typeof number that is NaN or infinite. -/

/-- A dynamic JavaScript field value as the validation code inspects it. -/
inductive RawField where
  | fabsent
  | fstr (s : String)
  | fnum (n : Int)
  | fnonfinite
  | fother
deriving DecidableEq

/-- A caller-supplied element of the setMessageHistory argument. -/
inductive RawMsgElem where
  | notObject
  | objM (content : RawField) (role : RawField)
deriving DecidableEq

/-- The per-element validity check of setMessageHistory
(src/index.js line 320): the element is an object whose content is a string of
length at most the maximum, and whose role is exactly the string user or the
string assistant. -/
def msgElemValid : RawMsgElem → Bool
  | .notObject => false
  | .objM c r =>
    match c with
    | .fstr s =>
      decide (s.length ≤ MAX_MESSAGE_LENGTH)
        && (r == .fstr "user" || r == .fstr "assistant")
    | _ => false

/-- The defensive copy setMessageHistory commits for an element that passed
validation (src/index.js lines 331-334): trimmed content plus the role.  The
catch-all branches are never reached for validated elements. -/
def commitMsg : RawMsgElem → Message
  | .objM (.fstr s) (.fstr "assistant") => ⟨jsTrim s, .assistant⟩
  | .objM (.fstr s) _ => ⟨jsTrim s, .user⟩
  | _ => ⟨"", .user⟩

/-- Errors the two replace operations raise. -/
inductive SetErr where
  /-- The descriptive validation error naming the offending index
  (src/index.js lines 321-326 and 456-460). -/
  | invalidEntry (i : Nat)
  /-- The ReferenceError raised by the future-timestamp warning check of
  setContext, which reads the undeclared identifier timestamp
  (src/index.js line 467). -/
  | referenceError
deriving DecidableEq

/-- The validation loop of setMessageHistory (src/index.js lines 316-327):
the first invalid element throws the descriptive error. -/
def msgValidateLoop : List RawMsgElem → Nat → Option SetErr
  | [], _ => none
  | e :: rest, i =>
    if msgElemValid e then msgValidateLoop rest (i + 1)
    else some (.invalidEntry i)

/-- setMessageHistory (src/index.js lines 309-337): validate every element,
then commit the defensive copies; a throw leaves the stored history as it
was.  The result is the history after the call together with the raised
error, if any. -/
def setMessageHistoryRun (old : List Message) (input : List RawMsgElem) :
    List Message × Option SetErr :=
  match msgValidateLoop input 0 with
  | some e => (old, some e)
  | none => (input.map commitMsg, none)

/-- A caller-supplied element of the setContext argument. -/
inductive RawCtxElem where
  | notObjectC
  | objC (content : RawField) (timestamp : RawField)
deriving DecidableEq

/-- The per-element validity check of setContext (src/index.js lines 452-455):
an object whose content is a non-blank string within the length bound and
whose timestamp, when present, is a finite non-negative number. -/
def ctxElemValid : RawCtxElem → Bool
  | .notObjectC => false
  | .objC c t =>
    (match c with
     | .fstr s =>
       decide (0 < (jsTrim s).length) && decide (s.length ≤ MAX_CONTEXT_ENTRY_LENGTH)
     | _ => false)
    &&
    (match t with
     | .fabsent => true
     | .fnum n => decide (0 ≤ n)
     | _ => false)

/-- Whether the future-timestamp warning check of setContext fires for an
element (src/index.js line 464): the timestamp is present, of typeof number,
and finite.  When it fires, the comparison at line 467 reads the undeclared
identifier timestamp and raises a ReferenceError. -/
def ctxWarnCheckFires : RawCtxElem → Bool
  | .notObjectC => false
  | .objC _ t =>
    match t with
    | .fnum _ => true
    | _ => false

/-- The validation loop of setContext (src/index.js lines 449-471): the first
invalid element throws the descriptive error; otherwise the first element
with a present finite numeric timestamp raises the ReferenceError. -/
def ctxValidateLoop : List RawCtxElem → Nat → Option SetErr
  | [], _ => none
  | e :: rest, i =>
    if !ctxElemValid e then some (.invalidEntry i)
    else if ctxWarnCheckFires e then some .referenceError
    else ctxValidateLoop rest (i + 1)

/-- The defensive copy setContext commits for an element that passed the loop
(src/index.js lines 475-478): trimmed content, timestamp defaulted to the
current time.  The catch-all branches are never reached for committed
elements. -/
def commitCtx (now : Int) : RawCtxElem → CtxEntry
  | .objC (.fstr s) (.fnum n) => ⟨jsTrim s, n⟩
  | .objC (.fstr s) _ => ⟨jsTrim s, now⟩
  | _ => ⟨"", now⟩

/-- setContext (src/index.js lines 443-481): run the validation loop, then
commit the defensive copies; a throw leaves the stored context as it was. -/
def setContextRun (old : List CtxEntry) (now : Int) (input : List RawCtxElem) :
    List CtxEntry × Option SetErr :=
  match ctxValidateLoop input 0 with
  | some e => (old, some e)
  | none => (input.map (commitCtx now), none)

/-- Whether an element has a defined timestamp field
(entry.timestamp !== undefined). -/
def ctxTsDefined : RawCtxElem → Bool
  | .notObjectC => false
  | .objC _ t => t != .fabsent

/-! ## Theorems about the claims -/

/-- Claim C1: the claim states that the arrays returned by the messageHistory
and context getters are defensive copies, so that no caller mutation can
affect internal state.  The getters return the internal array references
themselves, so pushing through the returned reference changes what every
subsequent getter call returns: with an initial history of one message, a
push through the getter result makes the next getter call return two
messages, and likewise for context. -/
theorem c1_getter_aliasing_bug :
    readArr (jsPush (⟨[[⟨"hi", .user⟩]]⟩ : ArrayHeap Message)
        (messageHistoryGetter 0) ⟨"x", .user⟩) (messageHistoryGetter 0)
      = [⟨"hi", .user⟩, ⟨"x", .user⟩] ∧
    readArr (jsPush (⟨[[⟨"hi", .user⟩]]⟩ : ArrayHeap Message)
        (messageHistoryGetter 0) ⟨"x", .user⟩) (messageHistoryGetter 0)
      ≠ readArr (⟨[[⟨"hi", .user⟩]]⟩ : ArrayHeap Message) (messageHistoryGetter 0) ∧
    readArr (jsPush (⟨[[⟨"ctx", 0⟩]]⟩ : ArrayHeap CtxEntry)
        (contextGetter 0) ⟨"y", 1⟩) (contextGetter 0)
      ≠ readArr (⟨[[⟨"ctx", 0⟩]]⟩ : ArrayHeap CtxEntry) (contextGetter 0) := by
  decide

/-- Claim C2: the claim states that every failing initialization outcome
invokes all registered callbacks exactly once with false.  In the code every
failure branch of the initializer throws without ever reaching
onInitializedExecute, so on a 500 response, any other non-200 status, a 200
body without a boolean valid field, valid:false, or a network exception the
callbacks receive no invocation at all - the empty invocation list, not the
singleton list containing false. -/
theorem c2_init_failures_never_notify :
    (initAgentRun (.reply ⟨500, .missing⟩) (.fetched 1 1 1)).callbackFlags = [] ∧
    (initAgentRun (.reply ⟨404, .missing⟩) (.fetched 1 1 1)).callbackFlags = [] ∧
    (initAgentRun (.reply ⟨200, .nonBool⟩) (.fetched 1 1 1)).callbackFlags = [] ∧
    (initAgentRun (.reply ⟨200, .missing⟩) (.fetched 1 1 1)).callbackFlags = [] ∧
    (initAgentRun (.reply ⟨200, .boolVal false⟩) (.fetched 1 1 1)).callbackFlags = [] ∧
    (initAgentRun .networkFailure (.fetched 1 1 1)).callbackFlags = [] ∧
    (initAgentRun (.reply ⟨500, .missing⟩) (.fetched 1 1 1)).threw = true ∧
    ([] : List Bool) ≠ [false] := by
  decide

/-- Claim C3: message, messageStream and rewrite follow the claimed update
rule (numeric header overwrites, absent or non-numeric header decrements),
but the mis-parenthesised guard in sort makes an absent header overwrite the
sorts counter with 0 instead of decrementing the previous value. -/
theorem c3_usage_counter_updates (prev n : Int) (s t : String)
    (hs : jsNumberOfHeaderVal (some s) = .num n)
    (ht : jsNumberOfHeaderVal (some t) = .nan) :
    meteredCounterUpdate (some s) prev = n ∧
    meteredCounterUpdate (some t) prev = prev - 1 ∧
    meteredCounterUpdate none prev = prev - 1 ∧
    sortCounterUpdate (some s) prev = n ∧
    sortCounterUpdate (some t) prev = prev - 1 ∧
    sortCounterUpdate none prev = 0 := by
  refine ⟨?_, ?_, ?_, ?_, ?_, ?_⟩
  · simp [meteredCounterUpdate, hs, jsIsNaNNum, jsNumVal]
  · simp [meteredCounterUpdate, ht, jsIsNaNNum]
  · simp [meteredCounterUpdate, jsNumberOfHeaderVal, jsIsNaNNum, jsNumVal]
  · by_cases hn : n = 0 <;>
      simp [sortCounterUpdate, hs, jsAndNumBool, jsNumTruthy,
        jsIsNaNAnd, jsNumVal, hn]
  · simp [sortCounterUpdate, ht, jsAndNumBool, jsNumTruthy,
      jsIsNaNAnd]
  · simp [sortCounterUpdate, jsNumberOfHeaderVal, jsAndNumBool, jsNumTruthy,
      jsIsNaNAnd, jsNumVal]

/-- Witness for C3 at the header strings 8 and abc with previous counter 7,
and the failing sort input: an absent header with previous sorts counter 5
yields 0, not 4. -/
theorem c3_usage_counter_updates_witness :
    meteredCounterUpdate (some "8") 7 = 8 ∧
    meteredCounterUpdate (some "abc") 7 = 6 ∧
    meteredCounterUpdate none 7 = 6 ∧
    sortCounterUpdate (some "8") 7 = 8 ∧
    sortCounterUpdate (some "abc") 7 = 6 ∧
    sortCounterUpdate none 5 = 0 ∧ (0 : Int) ≠ 5 - 1 := by
  have h := c3_usage_counter_updates 7 8 "8" "abc" (by decide) (by decide)
  have h5 := c3_usage_counter_updates 5 8 "8" "abc" (by decide) (by decide)
  exact ⟨h.1, by simpa using h.2.1, by simpa using h.2.2.1, h.2.2.2.1,
    by simpa using h.2.2.2.2.1, h5.2.2.2.2.2, by decide⟩

/-- Claim C4: the claim states that greet appends the reply to the history if
and only if saveToHistory is true, so greet(instructions, useContext, false)
leaves the history unchanged.  greet delegates with context enabled and
history-saving disabled as claimed, but then appends the assistant reply
unconditionally: with saveToMessageHistory = false and an empty history, a
successful call ends with one assistant message instead of none. -/
theorem c4_greet_appends_unconditionally :
    greetSuccess [] false "Hi!"
      = .ok ⟨true, false, [⟨"Hi!", .assistant⟩], "Hi!"⟩ ∧
    ([⟨"Hi!", .assistant⟩] : List Message) ≠ [] := by
  decide

/-- Claim C5: the claim states that context is persisted under a key
following the pattern product:agentIdentity:context.  The constructor
subscribes a writer and performs one restore read, but both use the fixed
literal key context, which differs from the namespaced key (for instance
heylock:A2:context) that the README and the repository tests expect. -/
theorem c5_storage_key_not_namespaced :
    (contextChangeWrite [⟨"hello world", 0⟩]).1 = "context" ∧
    constructionRestoreReadKey = "context" ∧
    contextPersistWriteKey ≠ namespacedContextKey "heylock" "A2" := by
  decide

/-- Claim C7: a shouldEngage call strictly less than 15 seconds after the
previous attempt returns the fallback object (shouldEngage false, empty
reasoning, the cooldown warning, fallback true) without contacting the remote
service and without resetting the timer; a call at or beyond the window
records its attempt time as the new timer value whatever the subsequent
outcome, including failing ones. -/
theorem c7_engagement_throttle (t1 t2 t3 : Int) (iOk : Bool)
    (http httpLater : EngageHttp)
    (hin : t2 - t1 < SHOULD_ENGAGE_THROTTLING_MS)
    (hout : SHOULD_ENGAGE_THROTTLING_MS ≤ t3 - t1) :
    shouldEngageRun t1 t2 iOk http
      = ⟨t1, false, .throttledResult ⟨false, "", throttleWarning, true⟩⟩ ∧
    (shouldEngageRun t1 t2 iOk http).contactedServer = false ∧
    (shouldEngageRun t1 t3 iOk httpLater).newTimeCalled = t3 := by
  have hnot : ¬ t3 - t1 < SHOULD_ENGAGE_THROTTLING_MS := not_lt.mpr hout
  refine ⟨by simp [shouldEngageRun, hin], by simp [shouldEngageRun, hin], ?_⟩
  cases iOk <;> simp [shouldEngageRun, hnot]

/-- Witness for C7: the timer starts at 0; a call at time 1000 is throttled,
and a call at time 20000 with invalid instructions (a failing outcome) still
updates the timer to 20000. -/
theorem c7_engagement_throttle_witness :
    shouldEngageRun 0 1000 false (.code 500)
      = ⟨0, false, .throttledResult ⟨false, "", throttleWarning, true⟩⟩ ∧
    (shouldEngageRun 0 1000 false (.code 500)).contactedServer = false ∧
    (shouldEngageRun 0 20000 false (.code 500)).newTimeCalled = 20000 :=
  c7_engagement_throttle 0 1000 20000 false (.code 500) (.code 500)
    (by decide) (by decide)

/-- Claim C8: for an input array of length at least 2 and a shape-valid 200
response whose indexes array has the same length, sort gathers the output as
output position i holding input at position indexes i (JavaScript indexing,
undefined modelled as none), with the response fallback flag defaulted to
false. -/
theorem c8_sort_gather {α : Type} (arr : List α) (d : SortServerData)
    (h2 : 2 ≤ arr.length) (hlen : d.indexes.length = arr.length) :
    sortCall arr d
      = .success (d.indexes.map (jsIndex arr)) d.indexes d.reasoning
          (d.fallback.getD false) ∧
    ∀ i (hi : i < d.indexes.length),
      (d.indexes.map (jsIndex arr)).get ⟨i, by simpa using hi⟩
        = jsIndex arr (d.indexes.get ⟨i, hi⟩) := by
  have hnot : ¬ arr.length < 2 := not_lt.mpr h2
  refine ⟨by simp [sortCall, hnot, hlen], ?_⟩
  intro i hi
  simp [List.getElem_map]

/-- Witness for C8 at the concrete example of the claim: input a b c with
server indexes 2 0 1 produces the gathered array c a b. -/
theorem c8_sort_gather_witness :
    sortCall ["a", "b", "c"] ⟨[2, 0, 1], "ok", none⟩
      = .success [some "c", some "a", some "b"] [2, 0, 1] "ok" false := by
  have h := (c8_sort_gather ["a", "b", "c"] ⟨[2, 0, 1], "ok", none⟩
    (by decide) (by decide)).1
  rw [h]
  decide

/-! Helper lemmas about the two validation loops. -/

/-- The setMessageHistory loop succeeds exactly when every element is valid. -/
theorem msgValidateLoop_eq_none_iff (l : List RawMsgElem) (i : Nat) :
    msgValidateLoop l i = none ↔ ∀ e ∈ l, msgElemValid e = true := by
  induction l generalizing i with
  | nil => simp [msgValidateLoop]
  | cons a t ih =>
    by_cases ha : msgElemValid a <;> simp [msgValidateLoop, ha, ih]

/-- Whatever the setMessageHistory loop throws is the descriptive validation
error for some index. -/
theorem msgValidateLoop_err_shape (l : List RawMsgElem) (i : Nat) (e : SetErr)
    (h : msgValidateLoop l i = some e) : ∃ j, e = .invalidEntry j := by
  induction l generalizing i with
  | nil => simp [msgValidateLoop] at h
  | cons a t ih =>
    by_cases ha : msgElemValid a
    · exact ih (i + 1) (by simpa [msgValidateLoop, ha] using h)
    · simp [msgValidateLoop, ha] at h
      exact ⟨i, h.symm⟩

/-- The setContext loop succeeds exactly when every element is valid and no
element triggers the future-timestamp warning check. -/
theorem ctxValidateLoop_eq_none_iff (l : List RawCtxElem) (i : Nat) :
    ctxValidateLoop l i = none
      ↔ ∀ e ∈ l, ctxElemValid e = true ∧ ctxWarnCheckFires e = false := by
  induction l generalizing i with
  | nil => simp [ctxValidateLoop]
  | cons a t ih =>
    by_cases ha : ctxElemValid a
    · by_cases hw : ctxWarnCheckFires a <;> simp [ctxValidateLoop, ha, hw, ih]
    · simp [ctxValidateLoop, ha]

/-- A valid element with a defined timestamp triggers the warning check. -/
theorem ctxWarnCheckFires_of_valid_tsDefined (e : RawCtxElem)
    (hv : ctxElemValid e = true) (ht : ctxTsDefined e = true) :
    ctxWarnCheckFires e = true := by
  cases e with
  | notObjectC => simp [ctxElemValid] at hv
  | objC c t =>
    cases t <;> simp_all [ctxElemValid, ctxTsDefined, ctxWarnCheckFires]

/-- When every element is valid, the loop halts with the ReferenceError at
the first element whose timestamp is defined. -/
theorem ctxValidateLoop_ref (l : List RawCtxElem) (i : Nat)
    (hv : ∀ e ∈ l, ctxElemValid e = true)
    (ht : ∃ e ∈ l, ctxTsDefined e = true) :
    ctxValidateLoop l i = some .referenceError := by
  induction l generalizing i with
  | nil => simp at ht
  | cons a t ih =>
    have hva : ctxElemValid a = true := hv a (by simp)
    by_cases hw : ctxWarnCheckFires a
    · simp [ctxValidateLoop, hva, hw]
    · have hta : ctxTsDefined a = false := by
        by_contra hcontra
        exact hw (ctxWarnCheckFires_of_valid_tsDefined a hva
          (by simpa using hcontra))
      have htt : ∃ e ∈ t, ctxTsDefined e = true := by
        rcases ht with ⟨e, he, hte⟩
        rcases List.mem_cons.mp he with rfl | hmem
        · rw [hta] at hte; exact absurd hte (by simp)
        · exact ⟨e, hmem, hte⟩
      simp [ctxValidateLoop, hva, hw]
      exact ih (i + 1) (fun e he => hv e (by simp [he])) htt

/-- Claim C9 counterexample: the claim states that any invalid element makes
setMessageHistory or setContext raise the descriptive validation error.  For
setContext applied to a fully valid timestamped entry followed by an invalid
element, the raised error is the ReferenceError of the warning check, not a
validation error; the stored context is still untouched. -/
theorem c9_counterexample_reference_error :
    (setContextRun [⟨"keep", 0⟩] 100
        [.objC (.fstr "x") (.fnum 5), .notObjectC]).2 = some .referenceError ∧
    (setContextRun [⟨"keep", 0⟩] 100
        [.objC (.fstr "x") (.fnum 5), .notObjectC]).2 ≠ some (.invalidEntry 0) ∧
    (setContextRun [⟨"keep", 0⟩] 100
        [.objC (.fstr "x") (.fnum 5), .notObjectC]).2 ≠ some (.invalidEntry 1) ∧
    (setContextRun [⟨"keep", 0⟩] 100
        [.objC (.fstr "x") (.fnum 5), .notObjectC]).1 = [⟨"keep", 0⟩] := by
  decide

/-- Claim C9 as amended: both replace operations are all-or-nothing.  Any
invalid element makes setMessageHistory raise the descriptive validation
error and makes setContext raise an error (the descriptive one, or a
ReferenceError when a valid timestamped entry precedes the first invalid
element); in every error case the stored collection is unchanged.  On success
the stored entries are the defensive copies: trimmed content, the given role,
and for context the timestamp defaulted to the current time. -/
theorem c9_replace_all_or_nothing
    (oldM : List Message) (inpM : List RawMsgElem)
    (oldC : List CtxEntry) (now : Int) (inpC : List RawCtxElem) :
    ((∃ e ∈ inpM, msgElemValid e = false) →
      (setMessageHistoryRun oldM inpM).1 = oldM ∧
      ∃ j, (setMessageHistoryRun oldM inpM).2 = some (.invalidEntry j)) ∧
    ((∀ e ∈ inpM, msgElemValid e = true) →
      setMessageHistoryRun oldM inpM = (inpM.map commitMsg, none)) ∧
    ((setContextRun oldC now inpC).2 ≠ none →
      (setContextRun oldC now inpC).1 = oldC) ∧
    ((∃ e ∈ inpC, ctxElemValid e = false) →
      (setContextRun oldC now inpC).2 ≠ none) ∧
    ((∀ e ∈ inpC, ctxElemValid e = true ∧ ctxWarnCheckFires e = false) →
      setContextRun oldC now inpC = (inpC.map (commitCtx now), none)) := by
  refine ⟨?_, ?_, ?_, ?_, ?_⟩
  · rintro ⟨e, he, hinv⟩
    have hne : msgValidateLoop inpM 0 ≠ none := by
      rw [Ne, msgValidateLoop_eq_none_iff]
      intro hall
      exact absurd (hall e he) (by simp [hinv])
    rcases hmatch : msgValidateLoop inpM 0 with _ | err
    · exact absurd hmatch hne
    · rcases msgValidateLoop_err_shape inpM 0 err hmatch with ⟨j, rfl⟩
      exact ⟨by simp [setMessageHistoryRun, hmatch], j,
        by simp [setMessageHistoryRun, hmatch]⟩
  · intro hall
    have hnone : msgValidateLoop inpM 0 = none :=
      (msgValidateLoop_eq_none_iff inpM 0).mpr hall
    simp [setMessageHistoryRun, hnone]
  · intro hne
    rcases hmatch : ctxValidateLoop inpC 0 with _ | err
    · simp [setContextRun, hmatch] at hne
    · simp [setContextRun, hmatch]
  · rintro ⟨e, he, hinv⟩
    have hne : ctxValidateLoop inpC 0 ≠ none := by
      rw [Ne, ctxValidateLoop_eq_none_iff]
      intro hall
      exact absurd (hall e he).1 (by simp [hinv])
    rcases hmatch : ctxValidateLoop inpC 0 with _ | err
    · exact absurd hmatch hne
    · simp [setContextRun, hmatch]
  · intro hall
    have hnone : ctxValidateLoop inpC 0 = none :=
      (ctxValidateLoop_eq_none_iff inpC 0).mpr hall
    simp [setContextRun, hnone]

/-- Witness for C9: an invalid element leaves the history untouched; valid
inputs commit the trimmed copies, and a valid unstamped context entry commits
with the defaulted timestamp. -/
theorem c9_replace_all_or_nothing_witness :
    (setMessageHistoryRun [⟨"old", .user⟩] [.notObject]).1 = [⟨"old", .user⟩] ∧
    setMessageHistoryRun [] [.objM (.fstr " hi ") (.fstr "user")]
      = ([⟨"hi", .user⟩], none) ∧
    setContextRun [⟨"a", 0⟩] 100 [.objC (.fstr " hi ") .fabsent]
      = ([⟨"hi", 100⟩], none) := by
  have h := c9_replace_all_or_nothing [⟨"old", .user⟩] [.notObject]
    [⟨"a", 0⟩] 100 [.objC (.fstr " hi ") .fabsent]
  have h2 := c9_replace_all_or_nothing [] [.objM (.fstr " hi ") (.fstr "user")]
    [⟨"a", 0⟩] 100 [.objC (.fstr " hi ") .fabsent]
  refine ⟨(h.1 ⟨.notObject, by decide, by decide⟩).1, ?_, ?_⟩
  · exact (h2.2.1 (by decide)).trans (by decide)
  · exact (h.2.2.2.2 (by decide)).trans (by decide)

/-- Claim C10 counterexample: the claim states that every setContext call
whose argument contains a fully valid timestamped entry throws a
ReferenceError.  When an invalid element precedes that entry the loop throws
the descriptive validation error at the earlier index instead, as here where
a non-object precedes a valid timestamped entry. -/
theorem c10_counterexample_earlier_invalid :
    ctxElemValid (.objC (.fstr "hi") (.fnum 5)) = true ∧
    ctxTsDefined (.objC (.fstr "hi") (.fnum 5)) = true ∧
    (setContextRun [⟨"keep", 0⟩] 100
        [.notObjectC, .objC (.fstr "hi") (.fnum 5)]).2
      = some (.invalidEntry 0) ∧
    some (SetErr.invalidEntry 0) ≠ some SetErr.referenceError := by
  decide

/-- Claim C10 as amended: when every element of the argument is valid and at
least one has a defined timestamp, setContext raises the ReferenceError of
the undeclared identifier read and the stored context is unchanged; moreover
any argument containing a fully valid timestamped entry is never committed -
the call always raises some error and leaves the context unchanged. -/
theorem c10_set_context_reference_error
    (old : List CtxEntry) (now : Int) (input : List RawCtxElem) :
    ((∀ e ∈ input, ctxElemValid e = true) →
      (∃ e ∈ input, ctxTsDefined e = true) →
      setContextRun old now input = (old, some .referenceError)) ∧
    ((∃ e ∈ input, ctxElemValid e = true ∧ ctxTsDefined e = true) →
      (setContextRun old now input).1 = old ∧
      (setContextRun old now input).2 ≠ none) := by
  constructor
  · intro hv ht
    have hloop := ctxValidateLoop_ref input 0 hv ht
    simp [setContextRun, hloop]
  · rintro ⟨e, he, hv, ht⟩
    have hne : ctxValidateLoop input 0 ≠ none := by
      rw [Ne, ctxValidateLoop_eq_none_iff]
      intro hall
      have := (hall e he).2
      rw [ctxWarnCheckFires_of_valid_tsDefined e hv ht] at this
      exact absurd this (by simp)
    rcases hmatch : ctxValidateLoop input 0 with _ | err
    · exact absurd hmatch hne
    · simp [setContextRun, hmatch]

/-- Witness for C10: a single fully valid timestamped entry makes setContext
raise the ReferenceError and leaves the prior context in place. -/
theorem c10_set_context_reference_error_witness :
    setContextRun [⟨"a", 0⟩] 100 [.objC (.fstr "x") (.fnum 5)]
      = ([⟨"a", 0⟩], some .referenceError) :=
  (c10_set_context_reference_error [⟨"a", 0⟩] 100
      [.objC (.fstr "x") (.fnum 5)]).1
    (by decide) ⟨.objC (.fstr "x") (.fnum 5), by decide, by decide⟩

/-- Setting the element just after a prefix replaces the singleton tail. -/
theorem set_append_length {α : Type} (pre : List α) (x y : α) :
    (pre ++ [x]).set pre.length y = pre ++ [y] := by
  induction pre with
  | nil => rfl
  | cons a t ih => simp [ih]

/-- Running the stream loop with history saving on a list of non-empty
fragments followed by a done record: every fragment is emitted in order, the
placeholder is overwritten with the trimmed cumulative text, and the loop
returns the cumulative text.  The hypotheses say that each cumulative text is
non-blank and within the length bound, which is what makes every
modifyMessage call succeed. -/
theorem runStreamLoop_fragments (fs : List String) (pre : List Message)
    (cur : String) (em : List String)
    (hcum : ∀ n, n < fs.length →
      (jsTrim (concatAllFrom cur (fs.take (n + 1)))).length ≠ 0 ∧
      (concatAllFrom cur (fs.take (n + 1))).length ≤ MAX_MESSAGE_LENGTH)
    (hne : ∀ f ∈ fs, f ≠ "") :
    runStreamLoop true pre.length
        (fs.map (fun f => ⟨some f, false⟩) ++ [⟨none, true⟩])
        ⟨em, cur, pre ++ [⟨jsTrim cur, .assistant⟩]⟩
      = .ok (⟨em ++ fs, concatAllFrom cur fs,
              pre ++ [⟨jsTrim (concatAllFrom cur fs), .assistant⟩]⟩,
             some (concatAllFrom cur fs)) := by
  induction fs generalizing cur em with
  | nil =>
    simp [runStreamLoop, jsStrTruthy, concatAllFrom]
  | cons f ft ih =>
    have hf : f ≠ "" := hne f (by simp)
    have h0 := hcum 0 (by simp)
    have hts : (jsTrim (cur ++ f)).length ≠ 0 := by
      simpa [concatAllFrom] using h0.1
    have hlen : (cur ++ f).length ≤ MAX_MESSAGE_LENGTH := by
      simpa [concatAllFrom] using h0.2
    have hmod : modifyMessage (pre ++ [⟨jsTrim cur, .assistant⟩]) pre.length
        (cur ++ f) (some .assistant)
        = .ok (pre ++ [⟨jsTrim (cur ++ f), .assistant⟩]) := by
      rw [modifyMessage, if_neg (by simp), if_neg hts,
        if_neg (by omega)]
      simp [set_append_length]
    have hstep : runStreamLoop true pre.length
        ((f :: ft).map (fun g => ⟨some g, false⟩) ++ [⟨none, true⟩])
        ⟨em, cur, pre ++ [⟨jsTrim cur, .assistant⟩]⟩
        = runStreamLoop true pre.length
            (ft.map (fun g => ⟨some g, false⟩) ++ [⟨none, true⟩])
            ⟨em ++ [f], cur ++ f, pre ++ [⟨jsTrim (cur ++ f), .assistant⟩]⟩ := by
      simp only [List.map_cons, List.cons_append, runStreamLoop, jsStrTruthy]
      rw [if_pos (by simp [hf])]
      simp [hmod]
    rw [hstep]
    have hcum2 : ∀ n, n < ft.length →
        (jsTrim (concatAllFrom (cur ++ f) (ft.take (n + 1)))).length ≠ 0 ∧
        (concatAllFrom (cur ++ f) (ft.take (n + 1))).length
          ≤ MAX_MESSAGE_LENGTH := by
      intro n hn
      have := hcum (n + 1) (by simpa using Nat.succ_lt_succ hn)
      simpa [List.take, concatAllFrom] using this
    have hne2 : ∀ g ∈ ft, g ≠ "" := fun g hg => hne g (by simp [hg])
    rw [ih (cur ++ f) (em ++ [f]) hcum2 hne2]
    simp [concatAllFrom]

/-- Claim C6 counterexample: the claim states that every record of the form
message fragment with done false causes that fragment to be emitted.  A
record whose fragment is the empty string is skipped - chunk.message is falsy
- so the stream over the records (message empty, done false) then (done true)
emits nothing rather than the one-element list containing the empty
fragment. -/
theorem c6_counterexample_empty_fragment :
    messageStreamRun [] "Hi" true [⟨some "", false⟩, ⟨none, true⟩]
      = .ok ([], some "", [⟨"Hi", .user⟩, ⟨"", .assistant⟩]) ∧
    ([] : List String) ≠ [""] := by
  decide

/-- Claim C6 as amended: over records carrying non-empty fragments followed
by a done record (and cumulative texts that stay non-blank and within the
length bound, so that each placeholder overwrite succeeds), messageStream
with history saving emits exactly the fragments in order, the done record
terminates the stream with the cumulative concatenation as final value, and
the placeholder assistant entry ends holding the trimmed cumulative
concatenation; records with an empty or absent fragment and done false are
skipped. -/
theorem c6_message_stream_records (history0 : List Message) (content : String)
    (fs : List String)
    (hc1 : (jsTrim content).length ≠ 0)
    (hc2 : content.length ≤ MAX_MESSAGE_LENGTH)
    (hcum : ∀ n, n < fs.length →
      (jsTrim (concatAllFrom "" (fs.take (n + 1)))).length ≠ 0 ∧
      (concatAllFrom "" (fs.take (n + 1))).length ≤ MAX_MESSAGE_LENGTH)
    (hne : ∀ f ∈ fs, f ≠ "") :
    messageStreamRun history0 content true
        (fs.map (fun f => ⟨some f, false⟩) ++ [⟨none, true⟩])
      = .ok (fs, some (concatAllFrom "" fs),
          (history0 ++ [⟨jsTrim content, .user⟩])
            ++ [⟨jsTrim (concatAllFrom "" fs), .assistant⟩]) := by
  rw [messageStreamRun, if_neg hc1, if_neg (by omega)]
  have hinit := runStreamLoop_fragments fs
    (history0 ++ [⟨jsTrim content, .user⟩]) "" [] hcum hne
  have htrimnil : jsTrim "" = "" := rfl
  rw [htrimnil] at hinit
  simp only [if_true]
  rw [hinit]
  simp

/-- Witness for C6 at the records of the claim: fragments He and llo followed
by done yield emissions He, llo, final value Hello, and a transcript whose
last entry holds Hello. -/
theorem c6_message_stream_records_witness :
    messageStreamRun [] "Hi" true
        (["He", "llo"].map (fun f => ⟨some f, false⟩) ++ [⟨none, true⟩])
      = .ok (["He", "llo"], some "Hello",
          [⟨"Hi", .user⟩, ⟨"Hello", .assistant⟩]) := by
  have h := c6_message_stream_records [] "Hi" ["He", "llo"]
    (by decide) (by decide) (by decide) (by decide)
  exact h.trans (by decide)

end Heylock
